import Mathlib

/-
Verification of the containerlab runtime abstraction layer: shallow embedding
of the podman driver helpers (runtime/podman/util.go) and the containerd
driver (containerd runtime file), together with theorems about bind-mount
translation, image pulling, management-network recording, label-to-IP
extraction, filter translation and the stop state machine.
-/

set_option autoImplicit false

/-! ## Go string primitives

The Go code uses strings.Split / strings.SplitN with a single-character
separator. We model them with structural recursion over the character list
so that every use reduces in the kernel. -/

/-- Splits a character list at every occurrence of sep, like Go strings.Split.
The accumulator holds the current (reversed) segment. -/
def goSplitAux (sep : Char) : List Char → List Char → List (List Char)
  | [], acc => [acc.reverse]
  | c :: cs, acc =>
    if c = sep then acc.reverse :: goSplitAux sep cs []
    else goSplitAux sep cs (c :: acc)

/-- Go strings.Split for a one-character separator: "".Split gives [""],
"a:b".Split gives ["a","b"]. -/
def goSplit (s : String) (sep : Char) : List String :=
  (goSplitAux sep s.data []).map String.mk

/-- Auxiliary for goSplitN: fuel counts the splits that may still be made;
once it reaches zero the rest of the input is consumed into one segment. -/
def goSplitNAux (sep : Char) : List Char → Nat → List Char → List (List Char)
  | [], _, acc => [acc.reverse]
  | c :: cs, 0, acc => goSplitNAux sep cs 0 (c :: acc)
  | c :: cs, fuel + 1, acc =>
    if c = sep then acc.reverse :: goSplitNAux sep cs fuel []
    else goSplitNAux sep cs (fuel + 1) (c :: acc)

/-- Go strings.SplitN for a one-character separator and n greater than zero:
at most n substrings, the last one holding the unsplit remainder; n = 0
yields the empty list, as in Go. -/
def goSplitN (s : String) (sep : Char) (n : Nat) : List String :=
  match n with
  | 0 => []
  | m + 1 => (goSplitNAux sep s.data m []).map String.mk

/-! ## Mount translation

specs.Mount from the opencontainers runtime spec, restricted to the fields
the two drivers populate. In Go the zero value of Options is nil, modelled
as the empty list. -/

/-- An opencontainers specs.Mount as populated by the drivers. -/
structure Mount where
  destination : String
  type : String
  source : String
  options : List String
  deriving DecidableEq, Repr

/-- One iteration of the podman driver's convertMounts loop
(runtime/podman/util.go): mntSplit := strings.SplitN(mnt, ":", 3); a split
of length one is rejected with the named invalid-bind error; options are
set only when a third segment is present. -/
def convertMount1 (mnt : String) : Except String Mount :=
  let mntSplit := goSplitN mnt ':' 3
  if mntSplit.length = 1 then
    Except.error ("invalid bind mount provided: " ++ mnt)
  else
    let m : Mount :=
      { destination := mntSplit.getD 1 "", type := "bind",
        source := mntSplit.getD 0 "", options := [] }
    if mntSplit.length = 3 then
      Except.ok { m with options := goSplit (mntSplit.getD 2 "") ',' }
    else
      Except.ok m

/-- The podman driver's convertMounts (runtime/podman/util.go lines 245-271):
translates each bind string in order, aborting with the first error. An
empty input yields the empty list. -/
def convertMounts (mounts : List String) : Except String (List Mount) :=
  match mounts with
  | [] => Except.ok []
  | mnt :: rest =>
    match convertMount1 mnt with
    | Except.error e => Except.error e
    | Except.ok m =>
      match convertMounts rest with
      | Except.error e => Except.error e
      | Except.ok ms => Except.ok (m :: ms)

/-- Outcome of a Go code path that may panic (index out of range). -/
inductive GoResult (α : Type) where
  | ok (val : α)
  | panicked
  deriving DecidableEq, Repr

/-- The containerd driver's inline bind translation (CreateContainer loop):
s := strings.Split(mount, ":"); the code indexes s[0] and s[1] without a
length check (a string with no colon panics), presets Options to
rbind,rprivate, and appends parsed options under the condition
len(mount) == 3 taken verbatim from the source - the length of the whole
string, not of the split - indexing s[2] unchecked in that branch. -/
def containerdMountEntry (mount : String) : GoResult Mount :=
  let s := goSplit mount ':'
  match s with
  | s0 :: s1 :: rest =>
    let m : Mount :=
      { destination := s1, type := "", source := s0,
        options := ["rbind", "rprivate"] }
    if mount.length = 3 then
      match rest with
      | s2 :: _ => GoResult.ok { m with options := m.options ++ goSplit s2 ',' }
      | [] => GoResult.panicked
    else GoResult.ok m
  | _ => GoResult.panicked

/-- The bind-mount handling inside the podman driver's createContainerSpec
(runtime/podman/util.go lines 70-75): an error from convertMounts is logged
and the spec is built with nil mounts; the error is not returned, so spec
creation proceeds. The Except mirrors createContainerSpec's own error
return, which this step never takes. -/
def createContainerSpecBinds (binds : List String) : Except String (List Mount) :=
  match convertMounts binds with
  | Except.error _ => Except.ok []
  | Except.ok ms => Except.ok ms

/-! ## Image pulling (containerd driver) -/

/-- The containerd driver's PullImageIfRequired: it canonicalises the
requested name, then lists ALL local images with no filter and skips the
pull whenever that unfiltered list is non-empty (len(images) > 0 in the
source); only when the local store is entirely empty does it pull the
canonical image. The canonicalisation (utils.GetCanonicalImageName, outside
these sources) is passed in as a function. Engine transport errors are
abstracted away; the result is (whether a pull was issued, the resulting
local image list). -/
def PullImageIfRequired (canonical : String → String)
    (localImages : List String) (imagename : String) : Bool × List String :=
  if 0 < localImages.length then (false, localImages)
  else (true, localImages ++ [canonical imagename])

/-! ## Management network recording (containerd driver) -/

/-- types.MgmtNet, restricted to the fields the drivers read. -/
structure MgmtNet where
  network : String
  bridge : String
  ipv4Subnet : String
  ipv6Subnet : String
  mtu : String
  deriving DecidableEq, Repr

/-- The all-empty management network descriptor. -/
def emptyMgmtNet : MgmtNet :=
  { network := "", bridge := "", ipv4Subnet := "", ipv6Subnet := "", mtu := "" }

/-- The containerd runtime state, restricted to the recorded Mgmt field. -/
structure ContainerdRuntimeState where
  mgmt : MgmtNet
  deriving DecidableEq, Repr

/-- The containerd driver's SetMgmtNet, translated verbatim: netname is
initialised to "clab" and reassigned to n.Network only when n.Network is
the empty string (the condition in the source is `if n.Network == ""`), so
a non-empty network name never reaches the derived bridge name. -/
def SetMgmtNet (c : ContainerdRuntimeState) (n : MgmtNet) : ContainerdRuntimeState :=
  let recorded :=
    if n.bridge = "" then
      let netname := if n.network = "" then n.network else "clab"
      { n with bridge := "br-" ++ netname }
    else n
  { c with mgmt := recorded }

/-! ## Label to GenericMgmtIPs extraction (containerd driver) -/

/-- types.GenericMgmtIPs. -/
structure GenericMgmtIPs where
  set : Bool
  ipv4addr : String
  ipv4pLen : Int
  ipv4Gw : String
  ipv6addr : String
  ipv6pLen : Int
  ipv6Gw : String
  deriving DecidableEq, Repr

/-- Go map lookup with ok-flag: the first binding for the key, if any.
Labels are modelled as association lists. -/
def lookupLabel (labels : List (String × String)) (key : String) : Option String :=
  (labels.find? (fun p => p.1 == key)).map (fun p => p.2)

/-- Go map indexing labels[key]: the empty string when the key is absent. -/
def labelValue (labels : List (String × String)) (key : String) : String :=
  (lookupLabel labels key).getD ""

/-- Digit-string accumulator for goAtoi. -/
def parseDigitsAux : List Char → Nat → Option Nat
  | [], acc => some acc
  | c :: cs, acc =>
    if c.isDigit then parseDigitsAux cs (acc * 10 + (c.toNat - '0'.toNat))
    else none

/-- Go strconv.Atoi on small inputs: an optional sign followed by at least
one digit; anything else is a syntax error (overflow is not modelled). -/
def goAtoi (s : String) : Except String Int :=
  let fail : Except String Int :=
    Except.error ("strconv.Atoi: parsing " ++ s ++ ": invalid syntax")
  match s.data with
  | [] => fail
  | '-' :: rest =>
    match rest with
    | [] => fail
    | _ =>
      match parseDigitsAux rest 0 with
      | some n => Except.ok (-(n : Int))
      | none => fail
  | '+' :: rest =>
    match rest with
    | [] => fail
    | _ =>
      match parseDigitsAux rest 0 with
      | some n => Except.ok (n : Int)
      | none => fail
  | cs =>
    match parseDigitsAux cs 0 with
    | some n => Except.ok (n : Int)
    | none => fail

/-- The netmask branch of extractIPInfoFromLabels: when the given netmask
label exists, isSet becomes true and the value is parsed with Atoi
(propagating a parse error); when absent the mask stays zero. -/
def netmaskFromLabels (labels : List (String × String)) (key : String) :
    Except String (Bool × Int) :=
  match lookupLabel labels key with
  | some v =>
    match goAtoi v with
    | Except.error e => Except.error e
    | Except.ok n => Except.ok (true, n)
  | none => Except.ok (false, 0)

/-- The containerd driver's extractIPInfoFromLabels: Set is true when
either netmask label exists; the address fields are read with plain map
indexing (empty string when absent) regardless of Set; the gateway fields
are never assigned and stay at their zero value. -/
def extractIPInfoFromLabels (labels : List (String × String)) :
    Except String GenericMgmtIPs :=
  match netmaskFromLabels labels "clab.ipv4.netmask" with
  | Except.error e => Except.error e
  | Except.ok (set4, ipv4mask) =>
    match netmaskFromLabels labels "clab.ipv6.netmask" with
    | Except.error e => Except.error e
    | Except.ok (set6, ipv6mask) =>
      Except.ok
        { set := set4 || set6,
          ipv4addr := labelValue labels "clab.ipv4.addr",
          ipv4pLen := ipv4mask, ipv4Gw := "",
          ipv6addr := labelValue labels "clab.ipv6.addr",
          ipv6pLen := ipv6mask, ipv6Gw := "" }

/-! ## Filter translation (both drivers) -/

/-- types.GenericFilter: filter type (name or label), field, operator
(equality or exists) and match value. -/
structure GenericFilter where
  filterType : String
  field : String
  operator : String
  matchv : String
  deriving DecidableEq, Repr

/-- One iteration of the podman driver's buildFilterString loop
(runtime/podman/util.go lines 421-449): exists becomes equality against the
empty value; a name filter keeps only the (possibly emptied) match value; a
non-name filter with a non-equality operator is skipped with a warning
(modelled as none); otherwise the entry is field ++ operator ++ value. -/
def buildFilterEntry (gF : GenericFilter) : Option (String × String) :=
  let filterOp := if gF.operator = "exists" then "=" else gF.operator
  let filterValue := if gF.operator = "exists" then "" else gF.matchv
  if gF.filterType = "name" then some (gF.filterType, filterValue)
  else if filterOp ≠ "=" then none
  else some (gF.filterType, gF.field ++ filterOp ++ filterValue)

/-- The podman driver's buildFilterString: the produced (filter type,
filter string) entries in input order, paired with the number of
log.Warnf calls (one per skipped filter). The Go code stores the entries
in a map keyed by filter type; the pair list carries the same data. -/
def buildFilterString : List GenericFilter → List (String × String) × Nat
  | [] => ([], 0)
  | gF :: rest =>
    let r := buildFilterString rest
    match buildFilterEntry gF with
    | some e => (e :: r.1, r.2)
    | none => (r.1, r.2 + 1)

/-- One iteration of the containerd driver's filterStringBuilder loop:
operator "=" becomes "==", "exists" becomes the empty operator; only label
filters contribute - "labels." ++ field is appended, followed (for
non-exists operators, including unsupported ones, which pass through) by
operator, match value and the current delimiter. Non-label filters leave
the string untouched and no warning is logged anywhere in the function. -/
def filterStringStep (acc : String) (delim : String) (f : GenericFilter) : String :=
  let isExists := f.operator = "exists"
  let op :=
    if f.operator = "=" then "=="
    else if f.operator = "exists" then ""
    else f.operator
  if f.filterType = "label" then
    let acc2 := acc ++ "labels." ++ f.field
    if isExists then acc2 else acc2 ++ op ++ f.matchv ++ delim
  else acc

/-- The loop of filterStringBuilder: the delimiter is the empty string for
the first iteration and "," afterwards, exactly as in the source. -/
def filterStringBuilderAux : List GenericFilter → String → String → String
  | [], acc, _ => acc
  | f :: rest, acc, delim => filterStringBuilderAux rest (filterStringStep acc delim f) ","

/-- The containerd driver's filterStringBuilder (containerd runtime file
lines 481-508). -/
def filterStringBuilder (fs : List GenericFilter) : String :=
  filterStringBuilderAux fs "" ""

/-- Warnings logged by the containerd filterStringBuilder: the source
contains no warning call at all, so the count is zero on every input. -/
def filterStringBuilderWarnings (_fs : List GenericFilter) : Nat := 0

/-! ## Stop/delete state machine (containerd driver StopContainer)

The task (when one exists) is modelled by the outcomes the engine returns
for each primitive StopContainer invokes, in source order: Status, Wait,
Resume, Kill, the exit-channel wait, and Delete. The events record which
primitives were actually invoked. -/

/-- containerd task states as observed by StopContainer's switch. -/
inductive TaskStatus where
  | created | running | paused | pausing | stopped | unknown
  deriving DecidableEq, Repr

/-- Outcomes of the engine primitives for one container task. -/
structure TaskEnv where
  statusResult : Except String TaskStatus
  waitResult : Except String Unit
  resumeResult : Except String Unit
  killResult : Except String Unit
  waitStopResult : Except String Unit
  deleteResult : Except String Nat

/-- A container as StopContainer sees it: either no task exists (the
engine already reclaimed the process) or a task with its primitive
outcomes. -/
structure ContainerState where
  task : Option TaskEnv

/-- The primitives StopContainer can invoke, in the order of the source. -/
inductive StopEvent where
  | statusQ | waitReg | resume | kill | waitExit | deleteTask
  deriving DecidableEq, Repr

/-- The paused flag of StopContainer's switch: Paused and Pausing. -/
def pausedOf : TaskStatus → Bool
  | TaskStatus.paused => true
  | TaskStatus.pausing => true
  | _ => false

/-- The needsStop flag of StopContainer's switch: false exactly for
Created and Stopped. -/
def needsStopOf : TaskStatus → Bool
  | TaskStatus.created => false
  | TaskStatus.stopped => false
  | _ => true

/-- The tail of StopContainer: ctask.Delete(ctx); on success the engine's
task record is gone, on failure the error is returned and the record
remains. -/
def deletePhase (t : TaskEnv) (evs : List StopEvent) :
    Except String Unit × List StopEvent × ContainerState :=
  match t.deleteResult with
  | Except.error e => (Except.error e, evs ++ [StopEvent.deleteTask], { task := some t })
  | Except.ok _ => (Except.ok (), evs ++ [StopEvent.deleteTask], { task := none })

/-- The containerd driver's StopContainer (containerd runtime file lines
387-442): no task means immediate success; a Status error propagates; when
needsStop, the exit channel is registered (Wait), a paused task gets a
Resume attempt whose failure is only warned about, SIGKILL is delivered,
and the exit wait runs; finally the task record is deleted. Returns the
result, the trace of invoked primitives, and the container state after the
call. -/
def StopContainer (s : ContainerState) : Except String Unit × List StopEvent × ContainerState :=
  match s.task with
  | none => (Except.ok (), [], s)
  | some t =>
    match t.statusResult with
    | Except.error e => (Except.error e, [StopEvent.statusQ], s)
    | Except.ok st =>
      if needsStopOf st then
        match t.waitResult with
        | Except.error e => (Except.error e, [StopEvent.statusQ, StopEvent.waitReg], s)
        | Except.ok _ =>
          let evs0 := [StopEvent.statusQ, StopEvent.waitReg]
          let evs1 := if pausedOf st then evs0 ++ [StopEvent.resume] else evs0
          match t.killResult with
          | Except.error e => (Except.error e, evs1 ++ [StopEvent.kill], s)
          | Except.ok _ =>
            match t.waitStopResult with
            | Except.error e => (Except.error e, evs1 ++ [StopEvent.kill, StopEvent.waitExit], s)
            | Except.ok _ => deletePhase t (evs1 ++ [StopEvent.kill, StopEvent.waitExit])
      else
        deletePhase t [StopEvent.statusQ]

/-- In a trace, every occurrence of b is preceded by an earlier occurrence
of a: walking the list, b must not show up before the first a. -/
def precedes (a b : StopEvent) : List StopEvent → Bool
  | [] => true
  | x :: xs => if x = b then false else if x = a then true else precedes a b xs

/-! ## Claim C1 -/

/-- Claim C1 (evaluation at the failing inputs): the podman translator
handles "src:dst:ro" and rejects "srcdst" with the named invalid-bind
error, as the claim states; the containerd translator, on the very same
inputs, silently drops the third-segment options (its guard compares the
string length, not the segment count, with 3) and panics on a string with
no colon instead of failing with a named error. -/
theorem c1_containerd_mount_divergence :
    convertMount1 "src:dst:ro" =
      Except.ok { destination := "dst", type := "bind", source := "src", options := ["ro"] }
    ∧ convertMounts ["srcdst"] = Except.error ("invalid bind mount provided: srcdst")
    ∧ containerdMountEntry "src:dst:ro" =
        GoResult.ok { destination := "dst", type := "", source := "src",
                      options := ["rbind", "rprivate"] }
    ∧ containerdMountEntry "srcdst" = GoResult.panicked :=
  ⟨rfl, rfl, rfl, rfl⟩

/-! ## Claim C2 -/

/-- Claim C2 (evaluation at the failing input): with a local store holding
only a different image, PullImageIfRequired issues no pull for an absent
image, because the source checks len(images) > 0 on an unfiltered image
list instead of looking for the canonical reference. -/
theorem c2_pull_skipped_when_other_image_present :
    PullImageIfRequired (fun s => s) ["docker.io/library/other:latest"]
        "docker.io/library/foo:latest"
      = (false, ["docker.io/library/other:latest"])
    ∧ "docker.io/library/foo:latest" ∉ ["docker.io/library/other:latest"] :=
  ⟨rfl, by decide⟩

/-! ## Claim C3 -/

/-- Claim C3 (evaluation at the failing input): for an empty bridge name
and network name "mgmt", SetMgmtNet records bridge "br-clab", not
"br-mgmt" as the claim derives, because the source's emptiness check on
the network name is inverted; with an empty network name it records the
dangling prefix "br-". -/
theorem c3_bridge_name_ignores_network_name :
    (SetMgmtNet ⟨emptyMgmtNet⟩ { emptyMgmtNet with network := "mgmt" }).mgmt.bridge = "br-clab"
    ∧ "br-clab" ≠ "br-" ++ "mgmt"
    ∧ (SetMgmtNet ⟨emptyMgmtNet⟩ emptyMgmtNet).mgmt.bridge = "br-" :=
  ⟨rfl, by decide, rfl⟩

/-! ## Claim C4 -/

/-- Claim C4 counterexample: a label map holding an IPv4 address but no
netmask label yields Set = false together with a non-empty IPv4 address
field, refuting the claim that Set = false implies all address fields are
empty. -/
theorem c4_set_false_with_nonempty_addr :
    extractIPInfoFromLabels [("clab.ipv4.addr", "10.0.0.2")]
      = Except.ok { set := false, ipv4addr := "10.0.0.2", ipv4pLen := 0, ipv4Gw := "",
                    ipv6addr := "", ipv6pLen := 0, ipv6Gw := "" }
    ∧ ("10.0.0.2" : String) ≠ "" :=
  ⟨rfl, by decide⟩

/-- Claim C4 (amended): for every label map containing neither netmask
label the extraction yields Set = false with both prefix lengths zero,
the address fields being the verbatim addr label values (empty when those
labels are absent); and the specific map with IPv4 address 10.0.0.2 and
netmask 24 yields Set = true, IPv4addr 10.0.0.2, IPv4pLen 24. -/
theorem c4_extract_ip_info_amended (labels : List (String × String))
    (h4 : lookupLabel labels "clab.ipv4.netmask" = none)
    (h6 : lookupLabel labels "clab.ipv6.netmask" = none) :
    extractIPInfoFromLabels labels
      = Except.ok { set := false,
                    ipv4addr := labelValue labels "clab.ipv4.addr",
                    ipv4pLen := 0, ipv4Gw := "",
                    ipv6addr := labelValue labels "clab.ipv6.addr",
                    ipv6pLen := 0, ipv6Gw := "" }
    ∧ extractIPInfoFromLabels [("clab.ipv4.addr", "10.0.0.2"), ("clab.ipv4.netmask", "24")]
      = Except.ok { set := true, ipv4addr := "10.0.0.2", ipv4pLen := 24, ipv4Gw := "",
                    ipv6addr := "", ipv6pLen := 0, ipv6Gw := "" } := by
  constructor
  · simp [extractIPInfoFromLabels, netmaskFromLabels, h4, h6]
  · rfl

/-- Witness for the amended Claim C4 at the empty label map. -/
theorem c4_extract_ip_info_amended_witness :
    extractIPInfoFromLabels []
      = Except.ok { set := false, ipv4addr := labelValue [] "clab.ipv4.addr",
                    ipv4pLen := 0, ipv4Gw := "",
                    ipv6addr := labelValue [] "clab.ipv6.addr",
                    ipv6pLen := 0, ipv6Gw := "" }
    ∧ extractIPInfoFromLabels [("clab.ipv4.addr", "10.0.0.2"), ("clab.ipv4.netmask", "24")]
      = Except.ok { set := true, ipv4addr := "10.0.0.2", ipv4pLen := 24, ipv4Gw := "",
                    ipv6addr := "", ipv6pLen := 0, ipv6Gw := "" } :=
  c4_extract_ip_info_amended [] rfl rfl

/-! ## Claim C5 -/

/-- If some bind string in the list splits into a single segment (no colon),
convertMounts fails, and the error names the offending string. -/
theorem convertMounts_error_of_malformed :
    ∀ (binds : List String), (∃ mnt, mnt ∈ binds ∧ (goSplitN mnt ':' 3).length = 1) →
    ∃ m, m ∈ binds ∧ (goSplitN m ':' 3).length = 1
      ∧ convertMounts binds = Except.error ("invalid bind mount provided: " ++ m) := by
  intro binds
  induction binds with
  | nil => rintro ⟨mnt, hmem, -⟩; exact absurd hmem (List.not_mem_nil mnt)
  | cons b rest ih =>
    rintro ⟨mnt, hmem, hmal⟩
    by_cases hb : (goSplitN b ':' 3).length = 1
    · refine ⟨b, List.mem_cons_self b rest, hb, ?_⟩
      simp [convertMounts, convertMount1, hb]
    · have hne : mnt ≠ b := fun he => hb (he ▸ hmal)
      have hrest : mnt ∈ rest := by
        rcases List.mem_cons.mp hmem with h1 | h1
        · exact absurd h1 hne
        · exact h1
      obtain ⟨m, hm, hmz, herr⟩ := ih ⟨mnt, hrest, hmal⟩
      refine ⟨m, List.mem_cons_of_mem b hm, hmz, ?_⟩
      have hok : ∃ mm, convertMount1 b = Except.ok mm := by
        unfold convertMount1
        simp only [hb, if_false]
        split <;> exact ⟨_, rfl⟩
      obtain ⟨mm, hmm⟩ := hok
      simp [convertMounts, hmm, herr]

/-- Claim C5 counterexample: for the node bind list ["nocolon"], the podman
spec builder does not fail - convertMounts produces the invalid-bind error,
but createContainerSpec logs it and proceeds with an empty mount list, so
container creation continues without the mount. -/
theorem c5_create_proceeds_on_malformed_bind :
    createContainerSpecBinds ["nocolon"] = Except.ok []
    ∧ convertMounts ["nocolon"] = Except.error ("invalid bind mount provided: nocolon") :=
  ⟨rfl, rfl⟩

/-- Claim C5 (amended): for every bind list containing a malformed entry
(no colon), convertMounts fails with the invalid-bind error naming an
offending string, but createContainerSpec swallows that error and builds
the spec with an empty mount list, so creation proceeds without any
mounts rather than failing. -/
theorem c5_mount_error_swallowed (binds : List String) (mnt : String)
    (hm : mnt ∈ binds) (hmal : (goSplitN mnt ':' 3).length = 1) :
    (∃ m, m ∈ binds ∧ (goSplitN m ':' 3).length = 1
       ∧ convertMounts binds = Except.error ("invalid bind mount provided: " ++ m))
    ∧ createContainerSpecBinds binds = Except.ok [] := by
  obtain ⟨m, h1, h2, h3⟩ := convertMounts_error_of_malformed binds ⟨mnt, hm, hmal⟩
  refine ⟨⟨m, h1, h2, h3⟩, ?_⟩
  simp [createContainerSpecBinds, h3]

/-- Witness for the amended Claim C5 at the bind list ["nocolon"]. -/
theorem c5_mount_error_swallowed_witness :
    (∃ m, m ∈ ["nocolon"] ∧ (goSplitN m ':' 3).length = 1
       ∧ convertMounts ["nocolon"] = Except.error ("invalid bind mount provided: " ++ m))
    ∧ createContainerSpecBinds ["nocolon"] = Except.ok [] :=
  c5_mount_error_swallowed ["nocolon"] "nocolon" (List.mem_singleton.mpr rfl) rfl

/-! ## Claims C6, C7, C10 -/

/-- A task whose every engine primitive succeeds, observed in state st. -/
def allOkTask (st : TaskStatus) : TaskEnv :=
  { statusResult := Except.ok st, waitResult := Except.ok (),
    resumeResult := Except.ok (), killResult := Except.ok (),
    waitStopResult := Except.ok (), deleteResult := Except.ok 0 }

/-- Claim C6: whatever the engine primitives return, a container observed
as Paused or Pausing never receives the kill signal without a resume
attempt earlier in the trace, and a container observed as Created or
Stopped has the wait registration, the kill and the exit wait all skipped. -/
theorem c6_stop_state_machine (s1 s2 : ContainerState) (t1 t2 : TaskEnv)
    (st1 st2 : TaskStatus)
    (h1 : s1.task = some t1) (hs1 : t1.statusResult = Except.ok st1)
    (hp : st1 = TaskStatus.paused ∨ st1 = TaskStatus.pausing)
    (h2 : s2.task = some t2) (hs2 : t2.statusResult = Except.ok st2)
    (hc : st2 = TaskStatus.created ∨ st2 = TaskStatus.stopped) :
    precedes StopEvent.resume StopEvent.kill (StopContainer s1).2.1 = true
    ∧ StopEvent.kill ∉ (StopContainer s2).2.1
    ∧ StopEvent.waitReg ∉ (StopContainer s2).2.1
    ∧ StopEvent.waitExit ∉ (StopContainer s2).2.1 := by
  obtain ⟨tk1⟩ := s1
  obtain ⟨tk2⟩ := s2
  change tk1 = some t1 at h1
  change tk2 = some t2 at h2
  subst h1
  subst h2
  obtain ⟨sr1, wr1, rr1, kr1, wsr1, dr1⟩ := t1
  obtain ⟨sr2, wr2, rr2, kr2, wsr2, dr2⟩ := t2
  change sr1 = Except.ok st1 at hs1
  change sr2 = Except.ok st2 at hs2
  subst hs1
  subst hs2
  refine ⟨?_, ?_, ?_, ?_⟩
  · rcases hp with rfl | rfl <;>
      rcases wr1 with e1 | u1 <;>
      rcases kr1 with e2 | u2 <;>
      rcases wsr1 with e3 | u3 <;>
      rcases dr1 with e4 | n4 <;>
      rfl
  · rcases hc with rfl | rfl <;> rcases dr2 with e | n <;>
      exact (by decide : StopEvent.kill ∉ [StopEvent.statusQ, StopEvent.deleteTask])
  · rcases hc with rfl | rfl <;> rcases dr2 with e | n <;>
      exact (by decide : StopEvent.waitReg ∉ [StopEvent.statusQ, StopEvent.deleteTask])
  · rcases hc with rfl | rfl <;> rcases dr2 with e | n <;>
      exact (by decide : StopEvent.waitExit ∉ [StopEvent.statusQ, StopEvent.deleteTask])

/-- Witness for Claim C6: a paused all-ok task and a created all-ok task. -/
theorem c6_stop_state_machine_witness :
    precedes StopEvent.resume StopEvent.kill
        (StopContainer ⟨some (allOkTask TaskStatus.paused)⟩).2.1 = true
    ∧ StopEvent.kill ∉ (StopContainer ⟨some (allOkTask TaskStatus.created)⟩).2.1
    ∧ StopEvent.waitReg ∉ (StopContainer ⟨some (allOkTask TaskStatus.created)⟩).2.1
    ∧ StopEvent.waitExit ∉ (StopContainer ⟨some (allOkTask TaskStatus.created)⟩).2.1 :=
  c6_stop_state_machine ⟨some (allOkTask TaskStatus.paused)⟩
    ⟨some (allOkTask TaskStatus.created)⟩
    (allOkTask TaskStatus.paused) (allOkTask TaskStatus.created)
    TaskStatus.paused TaskStatus.created rfl rfl (Or.inl rfl) rfl rfl (Or.inl rfl)

/-- Claim C7: a container with no task stops successfully with no kill
signal, and since the state is unchanged, a second StopContainer in a row
succeeds again with no kill signal either. -/
theorem c7_stop_no_task_idempotent (s : ContainerState) (h : s.task = none) :
    (StopContainer s).1 = Except.ok ()
    ∧ StopEvent.kill ∉ (StopContainer s).2.1
    ∧ (StopContainer (StopContainer s).2.2).1 = Except.ok ()
    ∧ StopEvent.kill ∉ (StopContainer (StopContainer s).2.2).2.1 := by
  obtain ⟨tk⟩ := s
  change tk = none at h
  subst h
  exact ⟨rfl, by decide, rfl, by decide⟩

/-- Witness for Claim C7 at the taskless container. -/
theorem c7_stop_no_task_idempotent_witness :
    (StopContainer ⟨none⟩).1 = Except.ok ()
    ∧ StopEvent.kill ∉ (StopContainer ⟨none⟩).2.1
    ∧ (StopContainer (StopContainer ⟨none⟩).2.2).1 = Except.ok ()
    ∧ StopEvent.kill ∉ (StopContainer (StopContainer ⟨none⟩).2.2).2.1 :=
  c7_stop_no_task_idempotent ⟨none⟩ rfl

/-- Claim C10: whenever a task exists and StopContainer returns success,
the task record was deleted during the call - also on the Created and
Stopped paths that skip the kill - so afterwards the container has no
task. -/
theorem c10_stop_deletes_task (s : ContainerState) (t : TaskEnv)
    (h : s.task = some t) (hok : (StopContainer s).1 = Except.ok ()) :
    StopEvent.deleteTask ∈ (StopContainer s).2.1
    ∧ (StopContainer s).2.2.task = none := by
  obtain ⟨tk⟩ := s
  change tk = some t at h
  subst h
  obtain ⟨sr, wr, rr, kr, wsr, dr⟩ := t
  rcases sr with e | st
  · simp [StopContainer] at hok
  · cases st <;>
      rcases wr with e1 | u1 <;>
      rcases kr with e2 | u2 <;>
      rcases wsr with e3 | u3 <;>
      rcases dr with e4 | n4 <;>
      first
        | refine ⟨by simp [StopContainer, needsStopOf, pausedOf, deletePhase], rfl⟩
        | simp [StopContainer, needsStopOf, pausedOf, deletePhase] at hok

/-- Witness for Claim C10: a created all-ok task. -/
theorem c10_stop_deletes_task_witness :
    StopEvent.deleteTask ∈ (StopContainer ⟨some (allOkTask TaskStatus.created)⟩).2.1
    ∧ (StopContainer ⟨some (allOkTask TaskStatus.created)⟩).2.2.task = none :=
  c10_stop_deletes_task ⟨some (allOkTask TaskStatus.created)⟩
    (allOkTask TaskStatus.created) rfl rfl

/-! ## Claims C8 and C9 -/

/-- String append acts as list append on the underlying characters. -/
theorem strData_append (a b : String) : (a ++ b).data = a.data ++ b.data := by
  cases a; cases b; rfl

/-- buildFilterString translates exactly the supported filters (in order)
and warns once per skipped filter. -/
theorem buildFilterString_spec (fs : List GenericFilter) :
    buildFilterString fs
      = (fs.filterMap buildFilterEntry,
         (fs.filter (fun x => (buildFilterEntry x).isNone)).length) := by
  induction fs with
  | nil => rfl
  | cons x rest ih =>
    cases hx : buildFilterEntry x <;>
      simp [buildFilterString, hx, ih, List.filterMap_cons, List.filter_cons]

/-- Each filterStringBuilder step only appends characters. -/
theorem filterStringStep_extends (acc delim : String) (f : GenericFilter) :
    ∃ t : List Char, (filterStringStep acc delim f).data = acc.data ++ t := by
  unfold filterStringStep
  by_cases hty : f.filterType = "label"
  · by_cases hex : f.operator = "exists"
    · exact ⟨("labels." ++ f.field).data, by simp [hty, hex, strData_append]⟩
    · refine ⟨("labels." ++ f.field).data
          ++ (if f.operator = "=" then ("==" : String) else f.operator).data
          ++ f.matchv.data ++ delim.data, ?_⟩
      simp [hty, hex, strData_append, List.append_assoc]
  · exact ⟨[], by simp [hty]⟩

/-- The filterStringBuilder loop only appends characters to its
accumulator. -/
theorem filterStringBuilderAux_extends (fs : List GenericFilter) :
    ∀ (acc delim : String), ∃ t : List Char,
      (filterStringBuilderAux fs acc delim).data = acc.data ++ t := by
  induction fs with
  | nil => intro acc delim; exact ⟨[], by simp [filterStringBuilderAux]⟩
  | cons f rest ih =>
    intro acc delim
    obtain ⟨t1, h1⟩ := ih (filterStringStep acc delim f) ","
    obtain ⟨t0, h0⟩ := filterStringStep_extends acc delim f
    refine ⟨t0 ++ t1, ?_⟩
    show (filterStringBuilderAux rest (filterStringStep acc delim f) ",").data = _
    rw [h1, h0, List.append_assoc]

/-- Splitting the filterStringBuilder loop at a list append: the second
half continues from the first half's accumulator (with some delimiter). -/
theorem filterStringBuilderAux_append (l1 l2 : List GenericFilter) :
    ∀ (acc delim : String), ∃ d2 : String,
      filterStringBuilderAux (l1 ++ l2) acc delim
        = filterStringBuilderAux l2 (filterStringBuilderAux l1 acc delim) d2 := by
  induction l1 with
  | nil => intro acc delim; exact ⟨delim, rfl⟩
  | cons x rest ih =>
    intro acc delim
    obtain ⟨d2, h⟩ := ih (filterStringStep acc delim x) ","
    exact ⟨d2, h⟩

/-- A label filter's step appends "labels." followed by the field (and
possibly more) to the accumulator. -/
theorem filterStringStep_label (acc delim : String) (f : GenericFilter)
    (hf : f.filterType = "label") :
    ∃ t : List Char, (filterStringStep acc delim f).data
      = acc.data ++ ("labels." ++ f.field).data ++ t := by
  unfold filterStringStep
  by_cases hex : f.operator = "exists"
  · exact ⟨[], by simp [hf, hex, strData_append]⟩
  · refine ⟨(if f.operator = "=" then ("==" : String) else f.operator).data
        ++ f.matchv.data ++ delim.data, ?_⟩
    simp [hf, hex, strData_append, List.append_assoc]

/-- Claim C8 counterexample: the containerd translator drops a name-type
filter from the query (the output is empty) while logging no warning at
all, so an unsupported combination is skipped silently, not with a
warning. -/
theorem c8_containerd_silent_skip :
    filterStringBuilder [⟨"name", "", "=", "somecontainer"⟩] = ""
    ∧ filterStringBuilderWarnings [⟨"name", "", "=", "somecontainer"⟩] = 0 :=
  ⟨rfl, rfl⟩

/-- Claim C8 (amended): the podman translator never fails, translating
every supported filter in order and warning exactly once per skipped
unsupported filter; the containerd translator never fails and still
translates every label filter wherever it sits in the sequence, but a
filter of any other type leaves the query string untouched and the
function logs no warning. -/
theorem c8_filter_translation_amended (fs fs1 fs2 : List GenericFilter)
    (f g : GenericFilter) (acc delim : String)
    (hf : f.filterType = "label") (hg : g.filterType ≠ "label") :
    buildFilterString fs
      = (fs.filterMap buildFilterEntry,
         (fs.filter (fun x => (buildFilterEntry x).isNone)).length)
    ∧ (∃ pre post : List Char,
        (filterStringBuilder (fs1 ++ f :: fs2)).data
          = pre ++ ("labels." ++ f.field).data ++ post)
    ∧ filterStringStep acc delim g = acc
    ∧ filterStringBuilderWarnings (fs1 ++ f :: fs2) = 0 := by
  refine ⟨buildFilterString_spec fs, ?_, ?_, rfl⟩
  · unfold filterStringBuilder
    obtain ⟨d2, hsplit⟩ := filterStringBuilderAux_append fs1 (f :: fs2) "" ""
    obtain ⟨t0, h0⟩ := filterStringStep_label (filterStringBuilderAux fs1 "" "") d2 f hf
    obtain ⟨t1, h1⟩ :=
      filterStringBuilderAux_extends fs2
        (filterStringStep (filterStringBuilderAux fs1 "" "") d2 f) ","
    refine ⟨(filterStringBuilderAux fs1 "" "").data, t0 ++ t1, ?_⟩
    rw [hsplit]
    show (filterStringBuilderAux fs2
        (filterStringStep (filterStringBuilderAux fs1 "" "") d2 f) ",").data = _
    rw [h1, h0]
    simp [List.append_assoc]
  · unfold filterStringStep
    simp [hg]

/-- Witness for the amended Claim C8: one supported label filter, one
name-type filter. -/
theorem c8_filter_translation_amended_witness :
    buildFilterString [⟨"label", "clab", "=", "v"⟩]
      = ([⟨"label", "clab", "=", "v"⟩].filterMap buildFilterEntry,
         ([⟨"label", "clab", "=", "v"⟩].filter
            (fun x => (buildFilterEntry x).isNone)).length)
    ∧ (∃ pre post : List Char,
        (filterStringBuilder ([] ++ ⟨"label", "clab", "=", "v"⟩ :: [])).data
          = pre ++ ("labels." ++ "clab").data ++ post)
    ∧ filterStringStep "" "" ⟨"name", "", "=", "x"⟩ = ""
    ∧ filterStringBuilderWarnings ([] ++ ⟨"label", "clab", "=", "v"⟩ :: []) = 0 :=
  c8_filter_translation_amended [⟨"label", "clab", "=", "v"⟩] [] []
    ⟨"label", "clab", "=", "v"⟩ ⟨"name", "", "=", "x"⟩ "" "" rfl (by decide)

/-- Claim C9 counterexample: the podman translation of a label filter with
the exists operator is the field followed by the equality token and the
empty match value - "myfield=" - not a bare presence test with no
equality. -/
theorem c9_exists_filter_carries_equality :
    buildFilterString [⟨"label", "myfield", "exists", "whatever"⟩]
      = ([("label", "myfield=")], 0)
    ∧ ("myfield=" : String) = "myfield" ++ "=" ++ ""
    ∧ ("myfield=" : String) ≠ "myfield" :=
  ⟨rfl, rfl, by decide⟩

/-- Claim C9 (amended): for a label filter with the exists operator, the
containerd translator emits "labels." followed by the field with no
operator and no value (a pure presence test), while the podman translator
maps exists to the equality operator with an emptied match value,
producing field ++ "=" ++ "". -/
theorem c9_exists_translation_amended (f : GenericFilter) (acc delim : String)
    (hop : f.operator = "exists") (hty : f.filterType = "label") :
    buildFilterEntry f = some ("label", f.field ++ "=" ++ "")
    ∧ filterStringStep acc delim f = acc ++ "labels." ++ f.field := by
  constructor
  · simp [buildFilterEntry, hop, hty]
  · simp [filterStringStep, hop, hty]

/-- Witness for the amended Claim C9 at a concrete exists filter. -/
theorem c9_exists_translation_amended_witness :
    buildFilterEntry ⟨"label", "myfield", "exists", "x"⟩
      = some ("label", "myfield" ++ "=" ++ "")
    ∧ filterStringStep "" "" ⟨"label", "myfield", "exists", "x"⟩
      = "" ++ "labels." ++ "myfield" :=
  c9_exists_translation_amended ⟨"label", "myfield", "exists", "x"⟩ "" "" rfl rfl
